import Mathlib

/-!
# Book store handlers of `week8-lab6/main.go`

A shallow embedding of the five gin handlers `getAllBooks`, `getBook`, `createBook`,
`updateBook` and `deleteBook` together with the PostgreSQL statements they issue.

* The `books` table is a list of rows; every column except the primary key may hold NULL.
* Each handler takes the table before the request and returns the HTTP response together
  with the table after the request.
* What the backend decides on its own is an explicit argument of the round trip:
  `coerce` (how the backend reads a text parameter that is compared with an integer column),
  `fault` (a failure of the round trip itself, such as a lost connection or a violated
  constraint; `none` when the backend carries the statement out), `now` (the backend clock)
  and `newId` (the id the backend assigns to an inserted row).
* A request body is represented by the result of `c.ShouldBindJSON`, a decoded `Book` or a
  decoding error.
-/

set_option autoImplicit false

namespace BookStore

/-! ## Data model -/

/-- Go `float64`, carried by its IEEE-754 bit pattern. The handlers never compute with it. -/
structure Float64 where
  bits : Nat
  deriving DecidableEq, Repr

/-- Go `time.Time`, an instant counted from the zero value of `time.Time`. -/
abbrev Time := Nat

/-- The struct `Book`. A field absent from a JSON payload keeps its zero value. -/
structure Book where
  ID : Int
  Title : String
  Author : String
  ISBN : String
  Year : Int
  Price : Float64
  CreatedAt : Time
  UpdatedAt : Time
  deriving DecidableEq, Repr

/-- Modelled from the spec: the schema of table `books` (no migration is part of the
sources). Columns are `id` (primary key, generated by the store), `title`, `author`,
`isbn`, `year`, `price`, `created_at`, `updated_at`; a column other than the key may be NULL. -/
structure Row where
  id : Int
  title : Option String
  author : Option String
  isbn : Option String
  year : Option Int
  price : Option Float64
  created_at : Option Time
  updated_at : Option Time
  deriving DecidableEq, Repr

/-- The contents of table `books`, in the order the backend enumerates them. -/
abbrev Store := List Row

/-- The errors of `database/sql` the handlers tell apart: `sql.ErrNoRows` and all others. -/
inductive SqlErr where
  | ErrNoRows
  | other (msg : String)
  deriving DecidableEq, Repr

/-- A Go slice `[]Book`; `none` is the nil slice. -/
abbrev Slice := Option (List Book)

/-- The value handed to `c.JSON`. -/
inductive Body where
  | error (msg : String)
  | message (msg : String)
  | book (b : Book)
  | books (bs : Slice)
  deriving DecidableEq, Repr

/-- The status and body handed to `c.JSON`. -/
structure Response where
  status : Nat
  body : Body
  deriving DecidableEq, Repr

def StatusOK : Nat := 200
def StatusCreated : Nat := 201
def StatusBadRequest : Nat := 400
def StatusNotFound : Nat := 404
def StatusInternalServerError : Nat := 500

/-! ## `strconv.Atoi` -/

/-- The value of a decimal digit. -/
def digitVal (c : Char) : Option Nat :=
  if '0' ≤ c ∧ c ≤ '9' then some (c.toNat - '0'.toNat) else none

/-- The digit loop of `strconv.Atoi`: `n = n*10 + int(ch)`, an error on a non-digit. -/
def parseDigits : List Char → Nat → Option Nat
  | [], n => some n
  | c :: cs, n =>
    match digitVal c with
    | none => none
    | some d => parseDigits cs (n * 10 + d)

/-- The range check of `strconv.Atoi` on a 64-bit `int`. -/
def inRange (negative : Bool) (n : Nat) : Option Int :=
  if negative then (if n ≤ 2 ^ 63 then some (-(n : Int)) else none)
  else (if n < 2 ^ 63 then some (n : Int) else none)

/-- Go `strconv.Atoi`: an optional sign, then one or more decimal digits, within `int`. -/
def Atoi (s : String) : Option Int :=
  match s.toList with
  | [] => none
  | c :: cs =>
    if c = '-' ∨ c = '+' then
      (if cs = [] then none else (parseDigits cs 0).bind (inRange (decide (c = '-'))))
    else (parseDigits (c :: cs) 0).bind (inRange false)

/-! ## The backend statements -/

/-- Go `rows.Scan(&book.ID, &book.Title, ...)` into non-pointer fields: NULL is an error. -/
def scanBook (r : Row) : Except String Book :=
  match r.title, r.author, r.isbn, r.year, r.price, r.created_at, r.updated_at with
  | some title, some author, some isbn, some year, some price, some createdAt, some updatedAt =>
    .ok { ID := r.id, Title := title, Author := author, ISBN := isbn, Year := year,
          Price := price, CreatedAt := createdAt, UpdatedAt := updatedAt }
  | _, _, _, _, _, _, _ => .error "sql: Scan error: converting NULL is unsupported"

/-- Statement `SELECT id, title, author, isbn, year, price, created_at, updated_at FROM books`. -/
def sqlSelectAll (fault : Option String) (s : Store) : Except String (List Row) :=
  match fault with
  | some e => .error e
  | none => .ok s

/-- Statement `SELECT ... FROM books WHERE year = $1` with a text parameter. -/
def sqlSelectByYear (coerce : String → Option Int) (fault : Option String) (s : Store)
    (year : String) : Except String (List Row) :=
  match fault with
  | some e => .error e
  | none =>
    match coerce year with
    | none => .error "pq: invalid input for type integer"
    | some y => .ok (s.filter fun r => r.year = some y)

/-- Statement `SELECT ... FROM books WHERE id = $1` with a text parameter. -/
def sqlSelectById (coerce : String → Option Int) (fault : Option String) (s : Store)
    (id : String) : Except String (List Row) :=
  match fault with
  | some e => .error e
  | none =>
    match coerce id with
    | none => .error "pq: invalid input for type integer"
    | some n => .ok (s.filter fun r => r.id = n)

/-- Modelled from the spec: the column defaults of table `books` (the schema is not part of
the sources). Statement `INSERT INTO books (title, author, isbn, year, price) VALUES
($1, $2, $3, $4, $5) RETURNING id, created_at, updated_at`: the store assigns `id`,
`created_at` and `updated_at`, and `id` is a primary key. -/
def sqlInsert (fault : Option String) (newId : Int) (now : Time) (s : Store)
    (title author isbn : String) (year : Int) (price : Float64) :
    Except String (Int × Time × Time) × Store :=
  match fault with
  | some e => (.error e, s)
  | none =>
    if s.any (fun r => r.id = newId) then
      (.error "pq: duplicate key value violates unique constraint", s)
    else
      (.ok (newId, now, now),
       s ++ [{ id := newId, title := some title, author := some author, isbn := some isbn,
               year := some year, price := some price, created_at := some now,
               updated_at := some now }])

/-- The assignments `SET title = $1, author = $2, isbn = $3, year = $4, price = $5,
updated_at = NOW()` applied to one row; `id` and `created_at` are not assigned. -/
def setClause (title author isbn : String) (year : Int) (price : Float64) (now : Time)
    (r : Row) : Row :=
  { r with title := some title, author := some author, isbn := some isbn,
           year := some year, price := some price, updated_at := some now }

/-- Statement `UPDATE books SET title = $1, author = $2, isbn = $3, year = $4, price = $5,
updated_at = NOW() WHERE id = $6 RETURNING updated_at` with a text parameter `$6`. -/
def sqlUpdate (coerce : String → Option Int) (fault : Option String) (now : Time) (s : Store)
    (title author isbn : String) (year : Int) (price : Float64) (id : String) :
    Except String (List Time) × Store :=
  match fault with
  | some e => (.error e, s)
  | none =>
    match coerce id with
    | none => (.error "pq: invalid input for type integer", s)
    | some n =>
      (.ok ((s.filter fun r => r.id = n).map fun _ => now),
       s.map fun r => if r.id = n then setClause title author isbn year price now r else r)

/-- The `sql.Result` of `db.Exec`; `RowsAffected` may itself report an error. -/
structure Result where
  affected : Except String Nat

/-- Go `result.RowsAffected()`. -/
def Result.RowsAffected (r : Result) : Except String Nat := r.affected

/-- Statement `DELETE FROM books WHERE id = $1` with a text parameter. -/
def sqlDelete (coerce : String → Option Int) (fault : Option String) (s : Store)
    (id : String) : Except String Result × Store :=
  match fault with
  | some e => (.error e, s)
  | none =>
    match coerce id with
    | none => (.error "pq: invalid input for type integer", s)
    | some n =>
      (.ok ⟨.ok (s.filter fun r => r.id = n).length⟩, s.filter fun r => ¬ r.id = n)

/-- Go `db.QueryRow(...).Scan(...)`: the error of the query, `sql.ErrNoRows` on an empty
result, otherwise the scan of the first row. -/
def QueryRow {α β : Type} (rows : Except String (List α)) (scan : α → Except String β) :
    Except SqlErr β :=
  match rows with
  | .error e => .error (.other e)
  | .ok [] => .error .ErrNoRows
  | .ok (r :: _) =>
    match scan r with
    | .error e => .error (.other e)
    | .ok b => .ok b

/-! ## The handlers -/

/-- Go `append(books, book)`; appending to the nil slice gives a non-nil slice. -/
def goAppend (books : Slice) (book : Book) : Slice :=
  match books with
  | none => some [book]
  | some bs => some (bs ++ [book])

/-- The loop `for rows.Next() { ... }` of `getAllBooks`: a row that fails to scan is logged
and skipped with `continue`, any other row is appended to `books`. -/
def scanLoop : List Row → Slice → Slice
  | [], books => books
  | r :: rest, books =>
    match scanBook r with
    | .error _ => scanLoop rest books
    | .ok book => scanLoop rest (goAppend books book)

/-- The query `getAllBooks` runs: filtered by year when the parameter is not empty. -/
def listQuery (coerce : String → Option Int) (fault : Option String) (s : Store)
    (yearInput : String) : Except String (List Row) :=
  if yearInput ≠ "" then sqlSelectByYear coerce fault s yearInput
  else sqlSelectAll fault s

/-- Handler `getAllBooks`; `yearInput` is `c.Query("year")`. -/
def getAllBooks (coerce : String → Option Int) (fault : Option String) (s : Store)
    (yearInput : String) : Response × Store :=
  match listQuery coerce fault s yearInput with
  | .error e => (⟨StatusInternalServerError, .error e⟩, s)
  | .ok rows =>
    let books := scanLoop rows none
    let books := if books = none then some [] else books
    (⟨StatusOK, .books books⟩, s)

/-- Handler `getBook`; `id` is `c.Param("id")`. -/
def getBook (coerce : String → Option Int) (fault : Option String) (s : Store)
    (id : String) : Response × Store :=
  match QueryRow (sqlSelectById coerce fault s id) scanBook with
  | .error .ErrNoRows => (⟨StatusNotFound, .error "book not found"⟩, s)
  | .error (.other e) => (⟨StatusInternalServerError, .error e⟩, s)
  | .ok book => (⟨StatusOK, .book book⟩, s)

/-- Handler `createBook`; `bind` is the outcome of `c.ShouldBindJSON(&newBook)`. -/
def createBook (fault : Option String) (newId : Int) (now : Time) (s : Store)
    (bind : Except String Book) : Response × Store :=
  match bind with
  | .error e => (⟨StatusBadRequest, .error e⟩, s)
  | .ok newBook =>
    match sqlInsert fault newId now s newBook.Title newBook.Author newBook.ISBN
        newBook.Year newBook.Price with
    | (.error e, s') => (⟨StatusInternalServerError, .error e⟩, s')
    | (.ok (id, createdAt, updatedAt), s') =>
      (⟨StatusCreated,
        .book { newBook with ID := id, CreatedAt := createdAt, UpdatedAt := updatedAt }⟩, s')

/-- Handler `updateBook`; `idStr` is `c.Param("id")`, `bind` the outcome of
`c.ShouldBindJSON(&updateBook)`. -/
def updateBook (coerce : String → Option Int) (fault : Option String) (now : Time)
    (s : Store) (idStr : String) (bind : Except String Book) : Response × Store :=
  match bind with
  | .error e => (⟨StatusBadRequest, .error e⟩, s)
  | .ok updateBook =>
    match Atoi idStr with
    | none => (⟨StatusBadRequest, .error "Invalid ID format"⟩, s)
    | some id =>
      match sqlUpdate coerce fault now s updateBook.Title updateBook.Author updateBook.ISBN
          updateBook.Year updateBook.Price idStr with
      | (rows, s') =>
        match QueryRow rows (fun t => (.ok t : Except String Time)) with
        | .error .ErrNoRows => (⟨StatusNotFound, .error "book not found"⟩, s')
        | .error (.other e) => (⟨StatusInternalServerError, .error e⟩, s')
        | .ok updatedAt =>
          (⟨StatusOK, .book { updateBook with ID := id, UpdatedAt := updatedAt }⟩, s')

/-- Handler `deleteBook`; `id` is `c.Param("id")`. -/
def deleteBook (coerce : String → Option Int) (fault : Option String) (s : Store)
    (id : String) : Response × Store :=
  match sqlDelete coerce fault s id with
  | (.error e, s') => (⟨StatusInternalServerError, .error e⟩, s')
  | (.ok result, s') =>
    match result.RowsAffected with
    | .error e => (⟨StatusInternalServerError, .error e⟩, s')
    | .ok rowsAffected =>
      if rowsAffected = 0 then (⟨StatusNotFound, .error "book not found"⟩, s')
      else (⟨StatusOK, .message "book deleted successfully"⟩, s')

/-! ## Derived notions used in the statements -/

/-- The books decoded from the rows that scan without error, in the order of the rows. -/
def decodedBooks (rows : List Row) : List Book :=
  rows.filterMap fun r => (scanBook r).toOption

/-- One `PUT /books/:id` request together with what the backend decides during it. -/
structure UpdateCall where
  fault : Option String
  now : Time
  bind : Except String Book

/-- The table after a sequence of `updateBook` requests on the same `idStr`. -/
def updateAll (coerce : String → Option Int) (idStr : String) : Store → List UpdateCall → Store
  | s, [] => s
  | s, c :: cs => updateAll coerce idStr (updateBook coerce c.fault c.now s idStr c.bind).2 cs

/-! ## Sample data -/

def duneRow : Row :=
  ⟨1, some "Dune", some "Herbert", some "111", some 1965, some ⟨999⟩, some 100, some 100⟩

def nullTitleRow : Row :=
  ⟨2, none, some "Asimov", some "222", some 1965, some ⟨500⟩, some 110, some 110⟩

def emmaRow : Row :=
  ⟨3, some "Emma", some "Austen", some "333", some 1815, some ⟨700⟩, some 50, some 60⟩

def sampleStore : Store := [duneRow, nullTitleRow, emmaRow]

def duneBook : Book := ⟨1, "Dune", "Herbert", "111", 1965, ⟨999⟩, 100, 100⟩

def emmaBook : Book := ⟨3, "Emma", "Austen", "333", 1815, ⟨700⟩, 50, 60⟩

/-- A payload carrying title, author, isbn, year 1966 and price only, decoded into a zero
`Book`: its `ID`, `CreatedAt` and `UpdatedAt` keep their zero values. -/
def dunePayload : Book := ⟨0, "Dune", "Herbert", "111", 1966, ⟨999⟩, 0, 0⟩

/-! ## Lemmas on the scan loop -/


theorem scanLoop_some (rows : List Row) (bs : List Book) :
    scanLoop rows (some bs) = some (bs ++ decodedBooks rows) := by
  induction rows generalizing bs with
  | nil => simp [scanLoop, decodedBooks]
  | cons r rest ih =>
    cases h : scanBook r with
    | error e => simp [scanLoop, h, ih, decodedBooks, Except.toOption]
    | ok b => simp [scanLoop, h, ih, decodedBooks, Except.toOption, goAppend]

theorem scanLoop_none (rows : List Row) :
    scanLoop rows none = if decodedBooks rows = [] then none else some (decodedBooks rows) := by
  induction rows with
  | nil => simp [scanLoop, decodedBooks]
  | cons r rest ih =>
    cases h : scanBook r with
    | error e =>
      simpa [scanLoop, h, decodedBooks, Except.toOption] using ih
    | ok b =>
      simp [scanLoop, h, goAppend, scanLoop_some, decodedBooks, Except.toOption]

theorem getAllBooks_of_rows (coerce : String → Option Int) (fault : Option String) (s : Store)
    (yearInput : String) (rows : List Row)
    (h : listQuery coerce fault s yearInput = .ok rows) :
    getAllBooks coerce fault s yearInput = (⟨StatusOK, .books (some (decodedBooks rows))⟩, s) := by
  unfold getAllBooks
  rw [h]
  simp only [scanLoop_none]
  by_cases hd : decodedBooks rows = [] <;> simp [hd]

theorem scanBook_year (r : Row) (b : Book) (h : scanBook r = .ok b) : r.year = some b.Year := by
  unfold scanBook at h
  split at h
  · rename_i h1 h2 h3 h4 h5 h6 h7
    injection h with h
    subst h
    simpa using h4
  · cases h

theorem decodedBooks_filter_year (rows : List Row) (Y : Int) :
    decodedBooks (rows.filter fun r => r.year = some Y)
      = (decodedBooks rows).filter fun b => b.Year = Y := by
  induction rows with
  | nil => simp [decodedBooks]
  | cons r rest ih =>
    unfold decodedBooks at ih ⊢
    cases h : scanBook r with
    | error e =>
      have ho : (scanBook r).toOption = none := by rw [h]; rfl
      by_cases hy : r.year = some Y
      · simp [List.filter_cons, hy, ho, ih]
      · simp [List.filter_cons, hy, ho, ih]
    | ok b =>
      have ho : (scanBook r).toOption = some b := by rw [h]; rfl
      have hb := scanBook_year r b h
      by_cases hy : b.Year = Y
      · simp [List.filter_cons, hb, hy, ho, ih]
      · simp [List.filter_cons, hb, hy, ho, ih]

/-! ## Lemmas on single-row lookups -/

theorem getBook_of_filter_nil (coerce : String → Option Int) (s : Store) (id : String) (n : Int)
    (hn : coerce id = some n) (h : (s.filter fun r => r.id = n) = []) :
    getBook coerce none s id = (⟨StatusNotFound, .error "book not found"⟩, s) := by
  simp [getBook, sqlSelectById, hn, h, QueryRow]

theorem getBook_of_filter_cons (coerce : String → Option Int) (s : Store) (id : String) (n : Int)
    (r : Row) (rest : List Row) (b : Book)
    (hn : coerce id = some n) (h : (s.filter fun r => r.id = n) = r :: rest)
    (hb : scanBook r = .ok b) :
    getBook coerce none s id = (⟨StatusOK, .book b⟩, s) := by
  simp [getBook, sqlSelectById, hn, h, QueryRow, hb]

theorem getBook_ok_inv (coerce : String → Option Int) (fault : Option String) (s : Store)
    (id : String) (b : Book)
    (h : (getBook coerce fault s id).1 = ⟨StatusOK, .book b⟩) :
    fault = none ∧ ∃ n r rest, coerce id = some n ∧ (s.filter fun r => r.id = n) = r :: rest
      ∧ scanBook r = .ok b := by
  cases fault with
  | some e => simp [getBook, sqlSelectById, QueryRow, StatusOK, StatusInternalServerError] at h
  | none =>
    refine ⟨rfl, ?_⟩
    cases hn : coerce id with
    | none => simp [getBook, sqlSelectById, QueryRow, hn, StatusOK, StatusInternalServerError] at h
    | some n =>
      cases hf : (s.filter fun r => r.id = n) with
      | nil => simp [getBook, sqlSelectById, QueryRow, hn, hf, StatusOK, StatusNotFound] at h
      | cons r rest =>
        cases hb : scanBook r with
        | error e =>
          simp [getBook, sqlSelectById, QueryRow, hn, hf, hb, StatusOK, StatusInternalServerError] at h
        | ok b' =>
          simp [getBook, sqlSelectById, QueryRow, hn, hf, hb] at h
          exact ⟨n, r, rest, rfl, hf, by rw [← h, hb]⟩

theorem filter_id_eq_nil (s : Store) (n : Int) :
    (s.filter fun r => r.id = n) = [] ↔ ∀ r ∈ s, r.id ≠ n := by
  simp [List.filter_eq_nil_iff]


theorem filter_id_map_update (s : Store) (n : Int) (upd : Row → Row)
    (hupd : ∀ r, (upd r).id = r.id) :
    ((s.map fun r => if r.id = n then upd r else r).filter fun r => r.id = n)
      = (s.filter fun r => r.id = n).map upd := by
  induction s with
  | nil => simp
  | cons r rest ih =>
    by_cases h : r.id = n
    · have h2 : (upd r).id = n := by rw [hupd, h]
      simp [List.filter_cons, h, h2, ih]
    · simp [List.filter_cons, h, ih]

/-! ## Lemmas on updates and deletes -/

theorem map_update_of_no_match (s : Store) (n : Int) (upd : Row → Row)
    (h : ∀ r ∈ s, r.id ≠ n) :
    (s.map fun r => if r.id = n then upd r else r) = s := by
  induction s with
  | nil => rfl
  | cons r rest ih =>
    have hr : r.id ≠ n := h r (List.mem_cons_self _ _)
    have hrest : ∀ x ∈ rest, x.id ≠ n := fun x hx => h x (List.mem_cons_of_mem _ hx)
    simp [hr, ih hrest]

theorem filter_ne_of_no_match (s : Store) (n : Int) (h : ∀ r ∈ s, r.id ≠ n) :
    (s.filter fun r => ¬ r.id = n) = s := by
  rw [List.filter_eq_self]
  intro r hr
  simpa using h r hr

theorem filter_id_filter_ne (s : Store) (n m : Int) (h : m ≠ n) :
    ((s.filter fun r => ¬ r.id = n).filter fun r => r.id = m) = s.filter fun r => r.id = m := by
  rw [List.filter_filter]
  apply List.filter_congr
  intro r _
  by_cases hm : r.id = m
  · simp [hm, h]
  · simp [hm]

theorem filter_id_filter_self (s : Store) (n : Int) :
    ((s.filter fun r => ¬ r.id = n).filter fun r => r.id = n) = [] := by
  rw [List.filter_filter, List.filter_eq_nil_iff]
  intro r _
  simp

theorem getBook_congr (coerce : String → Option Int) (fault : Option String) (s t : Store)
    (id : String)
    (h : ∀ m, coerce id = some m → (s.filter fun r => r.id = m) = t.filter fun r => r.id = m) :
    (getBook coerce fault s id).1 = (getBook coerce fault t id).1 := by
  cases fault with
  | some e => simp [getBook, sqlSelectById, QueryRow]
  | none =>
    cases hm : coerce id with
    | none => simp [getBook, sqlSelectById, QueryRow, hm]
    | some m =>
      have hf := h m hm
      cases ht : (t.filter fun r => r.id = m) with
      | nil => rw [ht] at hf; simp [getBook, sqlSelectById, QueryRow, hm, hf, ht]
      | cons r rest =>
        rw [ht] at hf
        cases hb : scanBook r <;> simp [getBook, sqlSelectById, QueryRow, hm, hf, ht, hb]

theorem deleteBook_not_error_inv (coerce : String → Option Int) (fault : Option String)
    (s : Store) (id : String)
    (h : (deleteBook coerce fault s id).1.status ≠ StatusInternalServerError) :
    ∃ n, coerce id = some n ∧ (deleteBook coerce fault s id).2 = s.filter fun r => ¬ r.id = n := by
  cases fault with
  | some e => simp [deleteBook, sqlDelete] at h
  | none =>
    cases hn : coerce id with
    | none => simp [deleteBook, sqlDelete, hn] at h
    | some n =>
      refine ⟨n, rfl, ?_⟩
      simp only [deleteBook, sqlDelete, hn, Result.RowsAffected]
      split <;> rfl

/-! ## Lemmas on `updateBook` -/

theorem scanBook_setClause (title author isbn : String) (year : Int) (price : Float64)
    (now : Time) (r : Row) (b : Book) (h : scanBook r = .ok b) :
    scanBook (setClause title author isbn year price now r)
      = .ok ⟨b.ID, title, author, isbn, year, price, b.CreatedAt, now⟩ := by
  unfold scanBook at h
  split at h
  · rename_i h1 h2 h3 h4 h5 h6 h7
    injection h with h
    subst h
    simp [scanBook, setClause, h6]
  · cases h

theorem updateBook_store_cases (coerce : String → Option Int) (fault : Option String)
    (now : Time) (s : Store) (idStr : String) (bind : Except String Book) :
    (updateBook coerce fault now s idStr bind).2 = s
    ∨ ∃ (n : Int) (p : Book), coerce idStr = some n
        ∧ (updateBook coerce fault now s idStr bind).2
          = s.map fun r =>
              if r.id = n then setClause p.Title p.Author p.ISBN p.Year p.Price now r else r := by
  cases bind with
  | error e => left; rfl
  | ok p =>
    cases hk : Atoi idStr with
    | none => left; simp [updateBook, hk]
    | some k =>
      cases fault with
      | some e => left; simp [updateBook, hk, sqlUpdate, QueryRow]
      | none =>
        cases hn : coerce idStr with
        | none => left; simp [updateBook, hk, sqlUpdate, hn, QueryRow]
        | some n =>
          right
          refine ⟨n, p, rfl, ?_⟩
          simp only [updateBook, hk, sqlUpdate, hn]
          cases hf : (s.filter fun r => r.id = n) with
          | nil => simp [QueryRow]
          | cons r rest => simp [QueryRow]

theorem getBook_updateBook_created_at (coerce : String → Option Int) (fault : Option String)
    (now : Time) (s : Store) (idStr : String) (bind : Except String Book) (b : Book)
    (h : (getBook coerce none s idStr).1 = ⟨StatusOK, .book b⟩) :
    ∃ b', (getBook coerce none (updateBook coerce fault now s idStr bind).2 idStr).1
            = ⟨StatusOK, .book b'⟩ ∧ b'.CreatedAt = b.CreatedAt := by
  rcases updateBook_store_cases coerce fault now s idStr bind with hs | ⟨n, p, hn, hs⟩
  · rw [hs]; exact ⟨b, h, rfl⟩
  · rw [hs]
    obtain ⟨_, m, r, rest, hm, hf, hb⟩ := getBook_ok_inv coerce none s idStr b h
    have hmn : m = n := by rw [hn] at hm; exact (Option.some.inj hm).symm
    subst hmn
    refine ⟨⟨b.ID, p.Title, p.Author, p.ISBN, p.Year, p.Price, b.CreatedAt, now⟩, ?_, rfl⟩
    have hf2 := filter_id_map_update s m (setClause p.Title p.Author p.ISBN p.Year p.Price now)
      (fun _ => rfl)
    rw [hf] at hf2
    have := getBook_of_filter_cons coerce _ idStr m _ _ _ hn hf2
      (scanBook_setClause p.Title p.Author p.ISBN p.Year p.Price now r b hb)
    rw [this]

theorem updateBook_keeps_created_at (coerce : String → Option Int) (fault : Option String)
    (now : Time) (s : Store) (idStr : String) (bind : Except String Book) :
    (updateBook coerce fault now s idStr bind).2.map (fun r => (r.id, r.created_at))
      = s.map (fun r => (r.id, r.created_at)) := by
  rcases updateBook_store_cases coerce fault now s idStr bind with hs | ⟨n, p, _, hs⟩
  · rw [hs]
  · rw [hs, List.map_map]
    apply List.map_congr_left
    intro r _
    by_cases hr : r.id = n <;> simp [hr, setClause]

/-! ## Claims on `getAllBooks` -/

/-- C10: whenever the query of `getAllBooks` yields result rows, some of which may fail to
scan, the handler answers 200 with exactly the books decoded from the rows that scan, in the
order of the rows; a row that fails to scan is the only thing dropped. -/
theorem getAllBooks_skips_unscannable_rows (coerce : String → Option Int)
    (fault : Option String) (s : Store) (yearInput : String) (rows : List Row)
    (h : listQuery coerce fault s yearInput = .ok rows) :
    getAllBooks coerce fault s yearInput
      = (⟨StatusOK, .books (some (rows.filterMap fun r => (scanBook r).toOption))⟩, s) :=
  getAllBooks_of_rows coerce fault s yearInput rows h

theorem getAllBooks_skips_unscannable_rows_witness :
    listQuery Atoi none sampleStore "" = .ok [duneRow, nullTitleRow, emmaRow]
    ∧ scanBook nullTitleRow = .error "sql: Scan error: converting NULL is unsupported"
    ∧ getAllBooks Atoi none sampleStore ""
        = (⟨200, .books (some [duneBook, emmaBook])⟩, sampleStore) :=
  ⟨rfl, rfl, getAllBooks_skips_unscannable_rows Atoi none sampleStore ""
    [duneRow, nullTitleRow, emmaRow] rfl⟩

/-- C5: when the query of `getAllBooks` (filtered or not) matches zero rows, the handler
answers 200 with an empty, non-nil slice and leaves the table alone; and for no input at
all does the handler hand a nil slice to `c.JSON`. -/
theorem getAllBooks_empty_is_not_nil (coerce : String → Option Int) (fault : Option String)
    (s : Store) (yearInput : String)
    (h : listQuery coerce fault s yearInput = .ok []) :
    getAllBooks coerce fault s yearInput = (⟨StatusOK, .books (some [])⟩, s)
    ∧ ∀ (c : String → Option Int) (f : Option String) (t : Store) (y : String),
        (getAllBooks c f t y).1.body ≠ .books none := by
  refine ⟨by simpa [decodedBooks] using getAllBooks_of_rows coerce fault s yearInput [] h, ?_⟩
  intro c f t y
  cases hq : listQuery c f t y with
  | error e => simp [getAllBooks, hq]
  | ok rows => simp [getAllBooks_of_rows c f t y rows hq]

theorem getAllBooks_empty_is_not_nil_witness :
    listQuery Atoi none sampleStore "2001" = .ok []
    ∧ getAllBooks Atoi none sampleStore "2001" = (⟨200, .books (some [])⟩, sampleStore)
    ∧ getAllBooks Atoi none [] "" = (⟨200, .books (some [])⟩, []) :=
  ⟨rfl, (getAllBooks_empty_is_not_nil Atoi none sampleStore "2001" rfl).1, rfl⟩

/-- C4: for every table and every integer `Y`, `getAllBooks` with the query parameter `year`
set to a text the backend reads as `Y` answers 200 with exactly the books of the unfiltered
answer whose `Year` is `Y`, in the same order. -/
theorem getAllBooks_year_filter (coerce : String → Option Int) (s : Store)
    (yearInput : String) (Y : Int) (hne : yearInput ≠ "") (hY : coerce yearInput = some Y) :
    ∃ all : List Book,
      getAllBooks coerce none s "" = (⟨StatusOK, .books (some all)⟩, s)
      ∧ getAllBooks coerce none s yearInput
          = (⟨StatusOK, .books (some (all.filter fun b => b.Year = Y))⟩, s) := by
  refine ⟨decodedBooks s, ?_, ?_⟩
  · exact getAllBooks_of_rows coerce none s "" s (by simp [listQuery, sqlSelectAll])
  · rw [← decodedBooks_filter_year]
    exact getAllBooks_of_rows coerce none s yearInput _
      (by simp [listQuery, hne, sqlSelectByYear, hY])

theorem getAllBooks_year_filter_witness :
    ("1815" : String) ≠ "" ∧ Atoi "1815" = some 1815
    ∧ ∃ all : List Book,
      getAllBooks Atoi none sampleStore "" = (⟨StatusOK, .books (some all)⟩, sampleStore)
      ∧ getAllBooks Atoi none sampleStore "1815"
          = (⟨StatusOK, .books (some (all.filter fun b => b.Year = 1815))⟩, sampleStore) :=
  ⟨by decide, by decide,
    getAllBooks_year_filter Atoi sampleStore "1815" 1815 (by decide) (by decide)⟩

/-! ## Claims on `createBook` -/

/-- C1: for every table and every decodable payload for which `createBook` answers 201 with
a book `b`, `getBook` run right afterwards on the resulting table, with a text the backend
reads as `b.ID`, answers 200 with a book equal to `b` in every field. -/
theorem getBook_after_createBook (coerce : String → Option Int) (fault : Option String)
    (newId : Int) (now : Time) (s s' : Store) (p b : Book)
    (h : createBook fault newId now s (.ok p) = (⟨StatusCreated, .book b⟩, s'))
    (idStr : String) (hid : coerce idStr = some b.ID) :
    getBook coerce none s' idStr = (⟨StatusOK, .book b⟩, s') := by
  cases fault with
  | some e => simp [createBook, sqlInsert, StatusCreated, StatusInternalServerError] at h
  | none =>
    by_cases hdup : (s.any fun r => r.id = newId) = true
    · simp [createBook, sqlInsert, hdup, StatusCreated, StatusInternalServerError] at h
    · simp [createBook, sqlInsert, hdup] at h
      obtain ⟨hb, hs⟩ := h
      subst hb hs
      have hnil : (s.filter fun r => r.id = newId) = [] := by
        simp only [List.any_eq_true, not_exists, not_and, decide_eq_true_eq] at hdup
        simpa [List.filter_eq_nil_iff] using hdup
      refine getBook_of_filter_cons coerce _ idStr newId
        ⟨newId, some p.Title, some p.Author, some p.ISBN, some p.Year, some p.Price,
          some now, some now⟩ [] _ hid ?_ rfl
      simp [List.filter_append, hnil]

theorem getBook_after_createBook_witness :
    createBook none 4 300 sampleStore (.ok dunePayload)
      = (⟨StatusCreated, .book ⟨4, "Dune", "Herbert", "111", 1966, ⟨999⟩, 300, 300⟩⟩,
         sampleStore ++ [⟨4, some "Dune", some "Herbert", some "111", some 1966, some ⟨999⟩,
           some 300, some 300⟩])
    ∧ Atoi "4" = some 4
    ∧ getBook Atoi none (sampleStore ++ [⟨4, some "Dune", some "Herbert", some "111",
          some 1966, some ⟨999⟩, some 300, some 300⟩]) "4"
      = (⟨StatusOK, .book ⟨4, "Dune", "Herbert", "111", 1966, ⟨999⟩, 300, 300⟩⟩,
         sampleStore ++ [⟨4, some "Dune", some "Herbert", some "111", some 1966, some ⟨999⟩,
           some 300, some 300⟩]) :=
  ⟨rfl, by decide,
    getBook_after_createBook Atoi none 4 300 sampleStore _ dunePayload _ rfl "4" (by decide)⟩

/-- C8: for every decodable payload whose insert succeeds, with the store returning `id`,
`createdAt` and `updatedAt` for the inserted row, `createBook` answers 201 with the title,
author, isbn, year and price of the payload and exactly those three store values; the
inserted row holds the same values, and two payloads that differ only in their id,
created_at and updated_at give the same response and the same table. -/
theorem createBook_returns_store_values (fault : Option String) (newId : Int) (now : Time)
    (s s' : Store) (p : Book) (id : Int) (createdAt updatedAt : Time)
    (h : sqlInsert fault newId now s p.Title p.Author p.ISBN p.Year p.Price
          = (.ok (id, createdAt, updatedAt), s')) :
    createBook fault newId now s (.ok p)
      = (⟨StatusCreated,
          .book ⟨id, p.Title, p.Author, p.ISBN, p.Year, p.Price, createdAt, updatedAt⟩⟩, s')
    ∧ s' = s ++ [⟨id, some p.Title, some p.Author, some p.ISBN, some p.Year, some p.Price,
                  some createdAt, some updatedAt⟩]
    ∧ ∀ (pid : Int) (pc pu : Time),
        createBook fault newId now s
            (.ok ⟨pid, p.Title, p.Author, p.ISBN, p.Year, p.Price, pc, pu⟩)
          = createBook fault newId now s (.ok p) := by
  refine ⟨by simp [createBook, h], ?_, fun pid pc pu => by simp [createBook]⟩
  cases fault with
  | some e => simp [sqlInsert] at h
  | none =>
    by_cases hdup : (s.any fun r => r.id = newId) = true
    · simp [sqlInsert, hdup] at h
    · simp [sqlInsert, hdup] at h
      obtain ⟨⟨h1, h2, h3⟩, hs⟩ := h
      subst h1 h2 h3
      exact hs.symm

theorem createBook_returns_store_values_witness :
    sqlInsert none 4 300 sampleStore "Dune" "Herbert" "111" 1966 ⟨999⟩
      = (.ok (4, 300, 300), sampleStore ++ [⟨4, some "Dune", some "Herbert", some "111",
          some 1966, some ⟨999⟩, some 300, some 300⟩])
    ∧ createBook none 4 300 sampleStore (.ok ⟨77, "Dune", "Herbert", "111", 1966, ⟨999⟩, 8, 9⟩)
      = (⟨201, .book ⟨4, "Dune", "Herbert", "111", 1966, ⟨999⟩, 300, 300⟩⟩,
         sampleStore ++ [⟨4, some "Dune", some "Herbert", some "111", some 1966, some ⟨999⟩,
           some 300, some 300⟩]) :=
  ⟨rfl, (createBook_returns_store_values none 4 300 sampleStore _
    ⟨77, "Dune", "Herbert", "111", 1966, ⟨999⟩, 8, 9⟩ 4 300 300 rfl).1⟩

/-! ## Claims on missing and deleted rows -/

/-- C6: let the backend read the id text as the integer `n`. If no row has id `n`, then
`getBook`, `updateBook` (with a decodable payload and an id text `strconv.Atoi` accepts) and
`deleteBook` each answer 404 with the message book not found and leave the table unchanged.
If some row has id `n`, none of the three answers 404, whatever the payload and whatever
the backend does. -/
theorem not_found_iff_no_row (coerce : String → Option Int) (s : Store) (idStr : String)
    (n : Int) (hn : coerce idStr = some n) :
    ((∀ r ∈ s, r.id ≠ n) →
      getBook coerce none s idStr = (⟨StatusNotFound, .error "book not found"⟩, s)
      ∧ (∀ (now : Time) (p : Book), Atoi idStr ≠ none →
          updateBook coerce none now s idStr (.ok p)
            = (⟨StatusNotFound, .error "book not found"⟩, s))
      ∧ deleteBook coerce none s idStr = (⟨StatusNotFound, .error "book not found"⟩, s))
    ∧ ((∃ r ∈ s, r.id = n) →
      ∀ (fault : Option String) (now : Time) (bind : Except String Book),
        (getBook coerce fault s idStr).1.status ≠ StatusNotFound
        ∧ (updateBook coerce fault now s idStr bind).1.status ≠ StatusNotFound
        ∧ (deleteBook coerce fault s idStr).1.status ≠ StatusNotFound) := by
  constructor
  · intro hno
    have hnil : (s.filter fun r => r.id = n) = [] := (filter_id_eq_nil s n).2 hno
    refine ⟨getBook_of_filter_nil coerce s idStr n hn hnil, ?_, ?_⟩
    · intro now p ha
      cases hk : Atoi idStr with
      | none => exact absurd hk ha
      | some k =>
        simp [updateBook, hk, sqlUpdate, hn, hnil, QueryRow, map_update_of_no_match s n _ hno]
    · have hkeep := filter_ne_of_no_match s n hno
      simp only [decide_not] at hkeep
      simp [deleteBook, sqlDelete, hn, hnil, Result.RowsAffected, hkeep]
  · rintro ⟨r0, hr0, hid⟩ fault now bind
    obtain ⟨r, rest, hf⟩ : ∃ r rest, (s.filter fun r => r.id = n) = r :: rest := by
      cases hf : (s.filter fun r => r.id = n) with
      | nil => exact absurd hid ((filter_id_eq_nil s n).1 hf r0 hr0)
      | cons r rest => exact ⟨r, rest, rfl⟩
    refine ⟨?_, ?_, ?_⟩
    · cases fault with
      | some e => simp [getBook, sqlSelectById, QueryRow, StatusNotFound, StatusInternalServerError]
      | none =>
        cases hb : scanBook r <;>
          simp [getBook, sqlSelectById, QueryRow, hn, hf, hb, StatusNotFound,
            StatusInternalServerError, StatusOK]
    · cases bind with
      | error e => simp [updateBook, StatusNotFound, StatusBadRequest]
      | ok p =>
        cases hk : Atoi idStr with
        | none => simp [updateBook, hk, StatusNotFound, StatusBadRequest]
        | some k =>
          cases fault with
          | some e =>
            simp [updateBook, hk, sqlUpdate, QueryRow, StatusNotFound, StatusInternalServerError]
          | none =>
            simp [updateBook, hk, sqlUpdate, hn, hf, QueryRow, StatusNotFound, StatusOK]
    · cases fault with
      | some e => simp [deleteBook, sqlDelete, StatusNotFound, StatusInternalServerError]
      | none =>
        simp [deleteBook, sqlDelete, hn, hf, Result.RowsAffected, StatusNotFound, StatusOK]

theorem not_found_iff_no_row_witness :
    Atoi "7" = some 7
    ∧ getBook Atoi none sampleStore "7" = (⟨404, .error "book not found"⟩, sampleStore)
    ∧ updateBook Atoi none 200 sampleStore "7" (.ok dunePayload)
        = (⟨404, .error "book not found"⟩, sampleStore)
    ∧ deleteBook Atoi none sampleStore "7" = (⟨404, .error "book not found"⟩, sampleStore) :=
  have h := (not_found_iff_no_row Atoi sampleStore "7" 7 (by decide)).1 (by decide)
  ⟨by decide, h.1, h.2.1 200 dunePayload (by decide), h.2.2⟩

/-- C7: for every table and every id text, when `deleteBook` does not end in a backend
error (status 500), `getBook` on the same id text afterwards answers 404, whether or not a
row was deleted; and for every id text the backend reads differently, `getBook` answers
after the delete exactly as it did before. -/
theorem getBook_after_deleteBook (coerce : String → Option Int) (fault : Option String)
    (s : Store) (idStr : String)
    (h : (deleteBook coerce fault s idStr).1.status ≠ StatusInternalServerError) :
    getBook coerce none (deleteBook coerce fault s idStr).2 idStr
      = (⟨StatusNotFound, .error "book not found"⟩, (deleteBook coerce fault s idStr).2)
    ∧ ∀ (other : String) (f : Option String), coerce other ≠ coerce idStr →
        (getBook coerce f (deleteBook coerce fault s idStr).2 other).1
          = (getBook coerce f s other).1 := by
  obtain ⟨n, hn, hs⟩ := deleteBook_not_error_inv coerce fault s idStr h
  rw [hs]
  refine ⟨getBook_of_filter_nil coerce _ idStr n hn (filter_id_filter_self s n), ?_⟩
  intro other f hne
  apply getBook_congr
  intro m hm
  have hmn : m ≠ n := by
    intro hmn
    apply hne
    rw [hm, hn, hmn]
  exact filter_id_filter_ne s n m hmn

theorem getBook_after_deleteBook_witness :
    deleteBook Atoi none sampleStore "1"
      = (⟨200, .message "book deleted successfully"⟩, [nullTitleRow, emmaRow])
    ∧ getBook Atoi none [nullTitleRow, emmaRow] "1"
      = (⟨404, .error "book not found"⟩, [nullTitleRow, emmaRow])
    ∧ (getBook Atoi none [nullTitleRow, emmaRow] "3").1 = ⟨200, .book emmaBook⟩ :=
  ⟨rfl, (getBook_after_deleteBook Atoi none sampleStore "1" (by decide)).1, rfl⟩

/-! ## Claims on `updateBook` -/

/-- C2: for every book that `getBook` returns and every finite sequence of `updateBook`
requests on its id text, with any payloads, clock readings and backend failures, `getBook`
afterwards still returns a book with the same created_at; moreover the sequence leaves the
stored created_at of every row unchanged. -/
theorem created_at_unchanged_by_updates (coerce : String → Option Int) (s : Store)
    (idStr : String) (calls : List UpdateCall) (b : Book)
    (h : (getBook coerce none s idStr).1 = ⟨StatusOK, .book b⟩) :
    (∃ b', (getBook coerce none (updateAll coerce idStr s calls) idStr).1
            = ⟨StatusOK, .book b'⟩ ∧ b'.CreatedAt = b.CreatedAt)
    ∧ (updateAll coerce idStr s calls).map (fun r => (r.id, r.created_at))
        = s.map (fun r => (r.id, r.created_at)) := by
  induction calls generalizing s b with
  | nil => exact ⟨⟨b, h, rfl⟩, rfl⟩
  | cons c cs ih =>
    obtain ⟨b1, h1, hc1⟩ := getBook_updateBook_created_at coerce c.fault c.now s idStr c.bind b h
    obtain ⟨⟨b2, h2, hc2⟩, hrows⟩ := ih _ b1 h1
    refine ⟨⟨b2, h2, hc2.trans hc1⟩, ?_⟩
    simp only [updateAll]
    rw [hrows]
    exact updateBook_keeps_created_at coerce c.fault c.now s idStr c.bind

theorem created_at_unchanged_by_updates_witness :
    (getBook Atoi none sampleStore "1").1 = ⟨StatusOK, .book duneBook⟩
    ∧ (getBook Atoi none
        (updateAll Atoi "1" sampleStore
          [⟨none, 200, .ok dunePayload⟩, ⟨none, 250, .error "unexpected EOF"⟩,
           ⟨some "connection refused", 260, .ok dunePayload⟩,
           ⟨none, 300, .ok ⟨9, "Dune II", "Herbert", "112", 1969, ⟨1299⟩, 7, 7⟩⟩]) "1").1
      = ⟨StatusOK, .book ⟨1, "Dune II", "Herbert", "112", 1969, ⟨1299⟩, 100, 300⟩⟩
    ∧ ∃ b', (getBook Atoi none
        (updateAll Atoi "1" sampleStore
          [⟨none, 200, .ok dunePayload⟩, ⟨none, 250, .error "unexpected EOF"⟩,
           ⟨some "connection refused", 260, .ok dunePayload⟩,
           ⟨none, 300, .ok ⟨9, "Dune II", "Herbert", "112", 1969, ⟨1299⟩, 7, 7⟩⟩]) "1").1
        = ⟨StatusOK, .book b'⟩ ∧ b'.CreatedAt = duneBook.CreatedAt :=
  ⟨rfl, rfl, (created_at_unchanged_by_updates Atoi sampleStore "1" _ duneBook rfl).1⟩

/-- C3: on the table holding the book with id 1 and created_at 100, `updateBook` with a
payload that carries title, author, isbn, year 1966 and price succeeds with the target id,
year 1966 and the new updated_at 200, yet the created_at of the response is the zero value
of the payload and not the stored 100, which the table still holds afterwards. -/
theorem updateBook_response_created_at_is_payload :
    (getBook Atoi none sampleStore "1").1 = ⟨200, .book duneBook⟩
    ∧ duneBook.CreatedAt = 100
    ∧ (updateBook Atoi none 200 sampleStore "1" (.ok dunePayload)).1
        = ⟨200, .book ⟨1, "Dune", "Herbert", "111", 1966, ⟨999⟩, 0, 200⟩⟩
    ∧ (getBook Atoi none (updateBook Atoi none 200 sampleStore "1" (.ok dunePayload)).2 "1").1
        = ⟨200, .book ⟨1, "Dune", "Herbert", "111", 1966, ⟨999⟩, 100, 200⟩⟩ :=
  ⟨rfl, rfl, rfl, rfl⟩

/-- C9: `updateBook` answers 400 and leaves the table unchanged for every id text that
`strconv.Atoi` rejects, whereas `getBook` and `deleteBook` never answer 400: they hand the
id text to the backend unparsed, and on the id text abc, which the backend rejects for the
integer column, both answer 500 with the backend error. -/
theorem unparsable_id_only_rejected_by_updateBook :
    (∀ (coerce : String → Option Int) (fault : Option String) (now : Time) (s : Store)
        (idStr : String) (bind : Except String Book), Atoi idStr = none →
        (updateBook coerce fault now s idStr bind).1.status = StatusBadRequest
        ∧ (updateBook coerce fault now s idStr bind).2 = s)
    ∧ (∀ (coerce : String → Option Int) (fault : Option String) (s : Store) (id : String),
        (getBook coerce fault s id).1.status ≠ StatusBadRequest
        ∧ (deleteBook coerce fault s id).1.status ≠ StatusBadRequest)
    ∧ Atoi "abc" = none
    ∧ getBook Atoi none sampleStore "abc"
        = (⟨500, .error "pq: invalid input for type integer"⟩, sampleStore)
    ∧ deleteBook Atoi none sampleStore "abc"
        = (⟨500, .error "pq: invalid input for type integer"⟩, sampleStore)
    ∧ updateBook Atoi none 200 sampleStore "abc" (.ok dunePayload)
        = (⟨400, .error "Invalid ID format"⟩, sampleStore) := by
  refine ⟨?_, ?_, rfl, rfl, rfl, rfl⟩
  · intro coerce fault now s idStr bind ha
    cases bind with
    | error e => exact ⟨rfl, rfl⟩
    | ok p => simp [updateBook, ha]
  · intro coerce fault s id
    constructor
    · unfold getBook
      split <;> simp [StatusBadRequest, StatusNotFound, StatusInternalServerError, StatusOK]
    · unfold deleteBook
      split
      · simp [StatusBadRequest, StatusInternalServerError]
      · split
        · simp [StatusBadRequest, StatusInternalServerError]
        · split <;> simp [StatusBadRequest, StatusNotFound, StatusOK]

end BookStore
